import Mathlib

/-!
Verification of `src/Scripts/generate_embeddings_basic.py` (survivAI repository).

The script is a linear ETL pipeline:
* `load_knowledge_files` scans a directory of JSON files, parses each one,
  and flattens the per-file scenario lists into one list, tagging every
  scenario with its file's category;
* `create_database` deletes any pre-existing output file, creates the
  `knowledge` table, the `knowledge_fts` full-text mirror, three
  synchronization triggers, two indexes and a `metadata` table, inserts one
  row per scenario, and commits once at the end;
* `main` wires the two together, exiting with status 1 when the input
  directory is missing or no scenarios were loaded.

Shallow embedding conventions:
* a parsed JSON knowledge file is a `KFile`; a file whose read or JSON parse
  fails is represented as `none` in the input list (`data.get` defaults are
  the `Option.getD` calls);
* scenario objects are records: the claims under verification presuppose the
  required fields (`id`, `keywords`, `context`, `priority`) are present, so
  they are structure fields; the optional per-scenario `category` that an
  input file may carry is an `Option String`;
* the SQLite database is an explicit state: the `knowledge` table is a list
  of (rowid, row) pairs, `knowledge_fts` a list of mirror rows, `metadata` a
  key/value list; the `AFTER INSERT` / `AFTER DELETE` / `AFTER UPDATE`
  triggers are folded into the corresponding table operations, exactly as
  SQLite fires them;
* `create_database` returns `Except String DB`: `Except.ok db` is the state
  committed by the single `conn.commit()` at the end; `Except.error e` means
  an exception (the unique-constraint violation) aborted the run before the
  commit was reached, so nothing is committed.
-/

/-- A scenario object as it appears inside an input JSON file.  The fields
`id`, `keywords`, `context`, `priority` are the required fields read by the
script; `category` is an optional field a scenario may carry in the input
(the loader overwrites it). -/
structure ScenarioJson where
  id : String
  category : Option String
  keywords : List String
  context : String
  priority : String
deriving DecidableEq

/-- A parsed input JSON file: `data.get('category', 'unknown')` and
`data.get('scenarios', [])` read these two optional keys. -/
structure KFile where
  category : Option String
  scenarios : Option (List ScenarioJson)
deriving DecidableEq

/-- A scenario after the loader has tagged it with its file's category
(`scenario['category'] = category`). -/
structure Scenario where
  id : String
  category : String
  keywords : List String
  context : String
  priority : String
deriving DecidableEq

/-- `data.get('category', 'unknown')`. -/
def fileCategory (d : KFile) : String := d.category.getD "unknown"

/-- `data.get('scenarios', [])`. -/
def fileScenarios (d : KFile) : List ScenarioJson := d.scenarios.getD []

/-- The loop body `scenario['category'] = category; all_scenarios.append(scenario)`:
the scenario is tagged with the enclosing file's category, discarding any
category value the scenario object itself carried. -/
def tagScenario (category : String) (s : ScenarioJson) : Scenario :=
  { id := s.id, category := category, keywords := s.keywords,
    context := s.context, priority := s.priority }

/-- The scenarios contributed by one successfully parsed file. -/
def loadFile (d : KFile) : List Scenario :=
  (fileScenarios d).map (tagScenario (fileCategory d))

/-- `load_knowledge_files`: iterate over the JSON files in directory order;
a file whose read or parse raised an exception (`none`) is logged and
skipped (`continue`), every other file appends its scenarios. -/
def load_knowledge_files : List (Option KFile) → List Scenario
  | [] => []
  | none :: rest => load_knowledge_files rest
  | some d :: rest => loadFile d ++ load_knowledge_files rest

/-- A row of the `knowledge` table:
`knowledge(id TEXT PRIMARY KEY, category TEXT NOT NULL, keywords TEXT NOT NULL,
context TEXT NOT NULL, priority TEXT NOT NULL, embedding BLOB)`;
the BLOB is a byte sequence, `none` is SQL NULL. -/
structure KnowledgeRow where
  id : String
  category : String
  keywords : String
  context : String
  priority : String
  embedding : Option (List Nat)
deriving DecidableEq

/-- A row of the `knowledge_fts` full-text mirror (columns `id`, `category`,
`keywords`, `context`, content-linked to `knowledge` by rowid). -/
structure FtsRow where
  rowid : Nat
  id : String
  category : String
  keywords : String
  context : String
deriving DecidableEq

/-- The state of the output SQLite database.  `knowledge` stores
(rowid, row) pairs; `nextRowid` is the rowid SQLite will assign to the next
inserted row. -/
structure DB where
  knowledge : List (Nat × KnowledgeRow)
  knowledge_fts : List FtsRow
  metadata : List (String × String)
  nextRowid : Nat
deriving DecidableEq

/-- The fresh database created by `sqlite3.connect` on a path with no file:
all tables empty; SQLite assigns rowids starting at 1. -/
def emptyDB : DB := { knowledge := [], knowledge_fts := [], metadata := [], nextRowid := 1 }

/-- The `knowledge_fts` entry the `knowledge_ai` trigger produces for a
`knowledge` row: `(new.rowid, new.id, new.category, new.keywords, new.context)`. -/
def ftsOf (kr : Nat × KnowledgeRow) : FtsRow :=
  { rowid := kr.1, id := kr.2.id, category := kr.2.category,
    keywords := kr.2.keywords, context := kr.2.context }

/-- The SQLite error signalled when two rows share the primary key. -/
def uniqueErr : String := "UNIQUE constraint failed: knowledge.id"

/-- `INSERT INTO knowledge ... VALUES (?, ?, ?, ?, ?, NULL)` together with the
`knowledge_ai` AFTER INSERT trigger: the `id TEXT PRIMARY KEY` constraint
rejects a duplicate id; otherwise the row is appended with the next rowid and
the trigger appends the matching `knowledge_fts` entry. -/
def insertKnowledge (db : DB) (r : KnowledgeRow) : Except String DB :=
  if db.knowledge.any (fun kr => kr.2.id == r.id) then
    Except.error uniqueErr
  else
    Except.ok
      { knowledge := db.knowledge ++ [(db.nextRowid, r)]
        knowledge_fts := db.knowledge_fts ++ [ftsOf (db.nextRowid, r)]
        metadata := db.metadata
        nextRowid := db.nextRowid + 1 }

/-- `DELETE FROM knowledge WHERE q` together with the `knowledge_ad`
AFTER DELETE trigger, which removes from `knowledge_fts` every row whose
rowid is the rowid of a deleted `knowledge` row. -/
def deleteKnowledge (db : DB) (q : KnowledgeRow → Bool) : DB :=
  { knowledge := db.knowledge.filter (fun kr => !(q kr.2))
    knowledge_fts := db.knowledge_fts.filter
      (fun fr => !(db.knowledge.any (fun kr => kr.1 == fr.rowid && q kr.2)))
    metadata := db.metadata
    nextRowid := db.nextRowid }

/-- `UPDATE knowledge SET ... WHERE q` together with the `knowledge_au`
AFTER UPDATE trigger, which rewrites the `knowledge_fts` row at
`old.rowid` with the updated row's `id`, `category`, `keywords`, `context`. -/
def updateKnowledge (db : DB) (q : KnowledgeRow → Bool) (f : KnowledgeRow → KnowledgeRow) : DB :=
  { knowledge := db.knowledge.map (fun kr => if q kr.2 then (kr.1, f kr.2) else kr)
    knowledge_fts := db.knowledge_fts.map (fun fr =>
      match db.knowledge.find? (fun kr => kr.1 == fr.rowid && q kr.2) with
      | some kr =>
        { rowid := fr.rowid, id := (f kr.2).id, category := (f kr.2).category,
          keywords := (f kr.2).keywords, context := (f kr.2).context }
      | none => fr)
    metadata := db.metadata
    nextRowid := db.nextRowid }

/-- The insertion loop `for i, scenario in enumerate(scenarios, 1): ...`:
each row is inserted in order; the first constraint violation raises and
aborts the remaining iterations. -/
def insertAll (db : DB) : List KnowledgeRow → Except String DB
  | [] => Except.ok db
  | r :: rest =>
    match insertKnowledge db r with
    | Except.ok db' => insertAll db' rest
    | Except.error e => Except.error e

/-- The `knowledge` row built from a loaded scenario:
`keywords = ', '.join(scenario['keywords'])`, `embedding` bound to NULL. -/
def scenarioRow (s : Scenario) : KnowledgeRow :=
  { id := s.id, category := s.category,
    keywords := String.intercalate ", " s.keywords,
    context := s.context, priority := s.priority, embedding := none }

/-- The four rows of the single `INSERT INTO metadata (key, value) VALUES ...`
statement, with `total_scenarios` bound to `str(len(scenarios))`. -/
def metadataRows (total : Nat) : List (String × String) :=
  [("model_name", "keyword-only"), ("embedding_dim", "0"),
   ("version", "1.0-basic"), ("total_scenarios", toString total)]

/-- `create_database(db_path, scenarios)`.  `oldFile` is the content of a
pre-existing file at the output path (`none` if the path is free):
`if db_path.exists(): db_path.unlink()` removes it, and `sqlite3.connect`
then creates a fresh empty database either way.  Schema creation (tables,
triggers, indexes) is followed by the insertion loop and the metadata
insert; `conn.commit()` runs once at the very end, so an exception during
insertion (`Except.error`) leaves nothing committed. -/
def create_database (oldFile : Option DB) (scenarios : List Scenario) : Except String DB :=
  let conn : DB :=
    match oldFile with
    | some _ => emptyDB
    | none => emptyDB
  match insertAll conn (scenarios.map scenarioRow) with
  | Except.error e => Except.error e
  | Except.ok db =>
    Except.ok { db with metadata := db.metadata ++ metadataRows scenarios.length }

/-- Outcome of a run of `main`: `exitEarly c` is a `sys.exit(c)` taken before
`create_database` is ever called (no output database is produced);
`buildError e` is an exception propagating out of `create_database`
(the process dies with a traceback, exit status 1); `success db` is a run
that built and verified `db` and returns normally (exit status 0). -/
inductive MainResult where
  | exitEarly (code : Nat)
  | buildError (e : String)
  | success (db : DB)
deriving DecidableEq

/-- The process exit status of a `MainResult`. -/
def exitStatus : MainResult → Nat
  | MainResult.exitEarly c => c
  | MainResult.buildError _ => 1
  | MainResult.success _ => 0

namespace Script

/-- `main()`.  `knowledge_dir` is `none` when the input directory does not
exist (first `sys.exit(1)`); otherwise it is the directory's JSON files in
enumeration order, a `none` entry standing for a file whose read or parse
fails.  `oldFile` is the content of a pre-existing output file. -/
def main (knowledge_dir : Option (List (Option KFile))) (oldFile : Option DB) : MainResult :=
  match knowledge_dir with
  | none => MainResult.exitEarly 1
  | some files =>
    let scenarios := load_knowledge_files files
    if scenarios = [] then MainResult.exitEarly 1
    else
      match create_database oldFile scenarios with
      | Except.error e => MainResult.buildError e
      | Except.ok db => MainResult.success db

end Script

/-- Consistency of the full-text mirror with the main table: `knowledge_fts`
is exactly the image of `knowledge` under the trigger mapping, the rowids of
`knowledge` are pairwise distinct, and all of them are below `nextRowid`. -/
def dbInv (db : DB) : Prop :=
  db.knowledge_fts = db.knowledge.map ftsOf ∧
  (db.knowledge.map Prod.fst).Nodup ∧
  ∀ rid ∈ db.knowledge.map Prod.fst, rid < db.nextRowid

/-- The observable consistency of the two tables: they agree on row count and
every `knowledge` row has a `knowledge_fts` entry with the same rowid, id,
category, keywords and context. -/
def ftsMatches (db : DB) : Prop :=
  db.knowledge_fts.length = db.knowledge.length ∧
  ∀ kr ∈ db.knowledge, ftsOf kr ∈ db.knowledge_fts

/-- A knowledge file with no `category` key carrying one scenario that has a
category of its own (used to instantiate the loader theorems). -/
def jfNoCategory : KFile :=
  { category := none,
    scenarios := some [{ id := "a", category := some "own", keywords := ["k"],
                         context := "c", priority := "p" }] }

/-- A knowledge file with no `scenarios` key. -/
def jfNoScenarios : KFile :=
  { category := some "fire", scenarios := none }

/-- C7: a file whose parsed JSON lacks the `category` key contributes
scenarios tagged with the category `"unknown"`, and a file lacking the
`scenarios` key contributes an empty scenario list; both defaults are total,
no error is raised. -/
theorem C7_missing_keys_use_defaults (d : KFile) :
    (d.category = none → ∀ s ∈ loadFile d, s.category = "unknown") ∧
    (d.scenarios = none → loadFile d = []) := by
  constructor
  · intro hc s hs
    simp only [loadFile, List.mem_map] at hs
    obtain ⟨j, _, rfl⟩ := hs
    simp [tagScenario, fileCategory, hc]
  · intro hsc
    simp [loadFile, fileScenarios, hsc]

/-- Witness for C7 at the two concrete files above. -/
theorem C7_missing_keys_use_defaults_witness :
    (tagScenario (fileCategory jfNoCategory)
      { id := "a", category := some "own", keywords := ["k"],
        context := "c", priority := "p" }).category = "unknown" ∧
    loadFile jfNoScenarios = [] := by
  refine ⟨(C7_missing_keys_use_defaults jfNoCategory).1 rfl _ ?_,
          (C7_missing_keys_use_defaults jfNoScenarios).2 rfl⟩
  simp [loadFile, jfNoCategory, fileScenarios, fileCategory, tagScenario]

/-- C8: a file whose read or parse fails (a `none` entry) is skipped and the
remaining files' scenarios are still all returned: the load of any directory
listing with a bad file inserted anywhere equals the load without it. -/
theorem C8_bad_file_skipped (pre post : List (Option KFile)) :
    load_knowledge_files (pre ++ none :: post) = load_knowledge_files (pre ++ post) := by
  induction pre with
  | nil => simp [load_knowledge_files]
  | cons f rest ih =>
    cases f with
    | none => simpa [load_knowledge_files] using ih
    | some d => simp [load_knowledge_files, ih]

/-- C10: the loader maps every scenario of a file through `tagScenario` with
the file-level category, `tagScenario` is insensitive to whatever category
value the scenario object itself carried, and the tagged scenario's category
is exactly the file's category (default `"unknown"`): no per-scenario
category from the input ever reaches the database. -/
theorem C10_scenario_category_overwritten (d : KFile) (s : ScenarioJson) (c : Option String) :
    loadFile d = (fileScenarios d).map (tagScenario (fileCategory d)) ∧
    tagScenario (fileCategory d) { s with category := c } = tagScenario (fileCategory d) s ∧
    (tagScenario (fileCategory d) s).category = fileCategory d :=
  ⟨rfl, rfl, rfl⟩

/-- The (rowid, row) pairs SQLite appends when inserting `rows` in order,
starting at rowid `n`. -/
def tagFrom : Nat → List KnowledgeRow → List (Nat × KnowledgeRow)
  | _, [] => []
  | n, r :: rs => (n, r) :: tagFrom (n + 1) rs

lemma tagFrom_map_snd (n : Nat) (rows : List KnowledgeRow) :
    (tagFrom n rows).map Prod.snd = rows := by
  induction rows generalizing n with
  | nil => rfl
  | cons r rs ih => simp [tagFrom, ih]

lemma tagFrom_length (n : Nat) (rows : List KnowledgeRow) :
    (tagFrom n rows).length = rows.length := by
  induction rows generalizing n with
  | nil => rfl
  | cons r rs ih => simp [tagFrom, ih]

/-- The insertion loop succeeds when the incoming ids are pairwise distinct
and distinct from all ids already in the table, and in that case it appends
exactly one (rowid, row) pair per row, the trigger mirrors each of them into
`knowledge_fts`, and `metadata` is untouched. -/
lemma insertAll_ok_of_nodup (rows : List KnowledgeRow) :
    ∀ db : DB, (rows.map KnowledgeRow.id).Nodup →
    (∀ r ∈ rows, ∀ kr ∈ db.knowledge, kr.2.id ≠ r.id) →
    insertAll db rows = Except.ok
      { knowledge := db.knowledge ++ tagFrom db.nextRowid rows
        knowledge_fts := db.knowledge_fts ++ (tagFrom db.nextRowid rows).map ftsOf
        metadata := db.metadata
        nextRowid := db.nextRowid + rows.length } := by
  induction rows with
  | nil => intro db _ _; simp [insertAll, tagFrom]
  | cons r rs ih =>
    intro db hnd hdisj
    have hnd' : (∀ x ∈ rs, ¬x.id = r.id) ∧ (rs.map KnowledgeRow.id).Nodup := by
      simpa using hnd
    have hany : db.knowledge.any (fun kr => kr.2.id == r.id) = false := by
      rw [List.any_eq_false]
      intro kr hkr
      simpa using hdisj r (by simp) kr hkr
    have hstep :
        insertKnowledge db r = Except.ok
          { knowledge := db.knowledge ++ [(db.nextRowid, r)]
            knowledge_fts := db.knowledge_fts ++ [ftsOf (db.nextRowid, r)]
            metadata := db.metadata
            nextRowid := db.nextRowid + 1 } := by
      simp [insertKnowledge, hany]
    have hdisj' : ∀ r' ∈ rs, ∀ kr ∈ db.knowledge ++ [(db.nextRowid, r)], kr.2.id ≠ r'.id := by
      intro r' hr' kr hkr
      rcases List.mem_append.mp hkr with hkr | hkr
      · exact hdisj r' (by simp [hr']) kr hkr
      · have : kr = (db.nextRowid, r) := by simpa using hkr
        subst this
        intro h
        exact hnd'.1 r' hr' h.symm
    have := ih { knowledge := db.knowledge ++ [(db.nextRowid, r)]
                 knowledge_fts := db.knowledge_fts ++ [ftsOf (db.nextRowid, r)]
                 metadata := db.metadata
                 nextRowid := db.nextRowid + 1 } hnd'.2 hdisj'
    simp only [insertAll, hstep, this, tagFrom]
    simp only [Except.ok.injEq, DB.mk.injEq, List.map_cons, List.length_cons, List.append_assoc,
      List.singleton_append, and_true, true_and]
    omega

/-- The insertion loop raises the primary-key violation (and therefore never
reaches the commit) whenever the incoming rows contain a duplicate id or an
id already present in the table; the raised error is always `uniqueErr`,
the only error the `INSERT` can signal here. -/
lemma insertAll_error_of_dup (rows : List KnowledgeRow) :
    ∀ db : DB,
    (¬ (rows.map KnowledgeRow.id).Nodup ∨ ∃ r ∈ rows, ∃ kr ∈ db.knowledge, kr.2.id = r.id) →
    insertAll db rows = Except.error uniqueErr := by
  induction rows with
  | nil =>
    intro db h
    rcases h with h | ⟨r, hr, _⟩
    · simp at h
    · simp at hr
  | cons r rs ih =>
    intro db h
    by_cases hany : db.knowledge.any (fun kr => kr.2.id == r.id) = true
    · simp [insertAll, insertKnowledge, hany]
    · have hfalse : db.knowledge.any (fun kr => kr.2.id == r.id) = false := by
        simpa using hany
      have hnone : ∀ kr ∈ db.knowledge, kr.2.id ≠ r.id := by
        rw [List.any_eq_false] at hfalse
        intro kr hkr
        simpa using hfalse kr hkr
      have hfalse' : db.knowledge.any (fun kr => kr.2.id == r.id) = false := by
        rw [List.any_eq_false]
        intro kr hkr
        simpa using hnone kr hkr
      have hstep :
          insertKnowledge db r = Except.ok
            { knowledge := db.knowledge ++ [(db.nextRowid, r)]
              knowledge_fts := db.knowledge_fts ++ [ftsOf (db.nextRowid, r)]
              metadata := db.metadata
              nextRowid := db.nextRowid + 1 } := by
        simp [insertKnowledge, hfalse']
      have hrec :
          (¬ (rs.map KnowledgeRow.id).Nodup ∨
            ∃ r' ∈ rs, ∃ kr ∈ db.knowledge ++ [(db.nextRowid, r)], kr.2.id = r'.id) := by
        rcases h with h | ⟨r', hr', kr, hkr, hid⟩
        · rw [List.map_cons, List.nodup_cons] at h
          push_neg at h
          by_cases hmem : r.id ∈ rs.map KnowledgeRow.id
        -- a later row reuses the id just inserted
          · obtain ⟨r', hr', hid⟩ := List.mem_map.mp hmem
            exact Or.inr ⟨r', hr', (db.nextRowid, r), by simp, hid.symm⟩
          · exact Or.inl (h hmem)
        · rcases List.mem_cons.mp hr' with rfl | hr'
          · exact absurd hid (hnone kr hkr)
          · exact Or.inr ⟨r', hr', kr, List.mem_append_left _ hkr, hid⟩
      have := ih { knowledge := db.knowledge ++ [(db.nextRowid, r)]
                   knowledge_fts := db.knowledge_fts ++ [ftsOf (db.nextRowid, r)]
                   metadata := db.metadata
                   nextRowid := db.nextRowid + 1 } hrec
      simp only [insertAll, hstep, this]

/-- The ids of the rows built from the scenarios are the scenario ids. -/
lemma scenarioRow_ids (scenarios : List Scenario) :
    (scenarios.map scenarioRow).map KnowledgeRow.id = scenarios.map Scenario.id := by
  simp [List.map_map]
  intro a _
  rfl

/-- The database a successful run on `scenarios` commits. -/
def builtDB (scenarios : List Scenario) : DB :=
  { knowledge := tagFrom 1 (scenarios.map scenarioRow)
    knowledge_fts := (tagFrom 1 (scenarios.map scenarioRow)).map ftsOf
    metadata := metadataRows scenarios.length
    nextRowid := 1 + scenarios.length }

/-- On pairwise distinct scenario ids, `create_database` commits `builtDB`. -/
lemma create_database_ok_of_nodup (oldFile : Option DB) (scenarios : List Scenario)
    (hnd : (scenarios.map Scenario.id).Nodup) :
    create_database oldFile scenarios = Except.ok (builtDB scenarios) := by
  have hrows : ((scenarios.map scenarioRow).map KnowledgeRow.id).Nodup := by
    rw [scenarioRow_ids]; exact hnd
  have hok := insertAll_ok_of_nodup (scenarios.map scenarioRow) emptyDB hrows
    (by intro r _ kr hkr; simp [emptyDB] at hkr)
  simp only [emptyDB, List.nil_append] at hok
  cases oldFile <;>
    simp [create_database, emptyDB, hok, builtDB, List.length_map]

/-- On a duplicated scenario id, `create_database` aborts with the
uniqueness violation before the commit. -/
lemma create_database_error_of_dup (oldFile : Option DB) (scenarios : List Scenario)
    (hdup : ¬ (scenarios.map Scenario.id).Nodup) :
    create_database oldFile scenarios = Except.error uniqueErr := by
  have herr := insertAll_error_of_dup (scenarios.map scenarioRow) emptyDB
    (Or.inl (by rw [scenarioRow_ids]; exact hdup))
  simp only [emptyDB] at herr
  cases oldFile <;> simp [create_database, emptyDB, herr]

/-- Whatever `create_database` commits is `builtDB`. -/
lemma create_database_ok_elim (oldFile : Option DB) (scenarios : List Scenario) (db : DB)
    (h : create_database oldFile scenarios = Except.ok db) : db = builtDB scenarios := by
  by_cases hnd : (scenarios.map Scenario.id).Nodup
  · rw [create_database_ok_of_nodup oldFile scenarios hnd] at h
    exact (Except.ok.inj h).symm
  · rw [create_database_error_of_dup oldFile scenarios hnd] at h
    cases h

/-- The loader's output length is the total scenario count across files. -/
lemma load_knowledge_files_length (files : List KFile) :
    (load_knowledge_files (files.map some)).length =
      (files.map (fun d => (fileScenarios d).length)).sum := by
  induction files with
  | nil => rfl
  | cons d rest ih => simp [load_knowledge_files, loadFile, ih]

/-- C1: for a valid input directory — every file parses, every scenario has
the required fields (structure fields here) and the ids are pairwise
distinct — the build commits, and the `knowledge` table holds exactly one
row per scenario object: its row count is the total scenario count across
all JSON files. -/
theorem C1_knowledge_row_count (oldFile : Option DB) (files : List KFile)
    (hids : ((load_knowledge_files (files.map some)).map Scenario.id).Nodup) :
    ∃ db, create_database oldFile (load_knowledge_files (files.map some)) = Except.ok db ∧
      db.knowledge.length = (files.map (fun d => (fileScenarios d).length)).sum := by
  refine ⟨builtDB _, create_database_ok_of_nodup _ _ hids, ?_⟩
  simp [builtDB, tagFrom_length, List.length_map, load_knowledge_files_length]

/-- A sample input file with category `"fire"` and two scenarios. -/
def sampleFile1 : KFile :=
  { category := some "fire",
    scenarios := some
      [{ id := "a", category := none, keywords := ["smoke", "flame"],
         context := "c1", priority := "high" },
       { id := "b", category := none, keywords := ["heat"],
         context := "c2", priority := "low" }] }

/-- A sample input file with no category key and one scenario. -/
def sampleFile2 : KFile :=
  { category := none,
    scenarios := some
      [{ id := "d", category := some "own", keywords := ["water"],
         context := "c3", priority := "mid" }] }

/-- Witness for C1 on a directory of two concrete files, three scenarios. -/
theorem C1_knowledge_row_count_witness :
    ∃ db, create_database none (load_knowledge_files ([sampleFile1, sampleFile2].map some)) =
        Except.ok db ∧
      db.knowledge.length =
        ([sampleFile1, sampleFile2].map (fun d => (fileScenarios d).length)).sum :=
  C1_knowledge_row_count none [sampleFile1, sampleFile2] (by decide)

/-- C2: two scenarios sharing an id (wherever they came from) make the
insertion loop raise the uniqueness-constraint violation; the run aborts and
the single `conn.commit()` at the end of `create_database` is never reached,
so the result is `Except.error` — no scenario rows and no metadata are
committed (the insertions and the metadata write form one uncommitted
unit). -/
theorem C2_duplicate_id_aborts_uncommitted (oldFile : Option DB) (scenarios : List Scenario)
    (hdup : ¬ (scenarios.map Scenario.id).Nodup) :
    create_database oldFile scenarios = Except.error uniqueErr :=
  create_database_error_of_dup oldFile scenarios hdup

/-- Two scenarios with the same id `"a"` (as if from different files). -/
def dupScenarioA : Scenario :=
  { id := "a", category := "fire", keywords := ["smoke"], context := "c1", priority := "high" }

/-- Second scenario with the duplicated id `"a"`. -/
def dupScenarioB : Scenario :=
  { id := "a", category := "water", keywords := ["wave"], context := "c2", priority := "low" }

/-- Witness for C2 on a concrete duplicated id. -/
theorem C2_duplicate_id_aborts_uncommitted_witness :
    create_database none [dupScenarioA, dupScenarioB] = Except.error uniqueErr :=
  C2_duplicate_id_aborts_uncommitted none [dupScenarioA, dupScenarioB] (by decide)

/-- C4: a pre-existing file at the output path is deleted unconditionally
and the database is rebuilt from scratch, so a re-run over a pre-existing
file produces exactly the result — in particular the same row count — of a
run with no pre-existing file: the old file is fully replaced, never
appended to. -/
theorem C4_idempotent_regeneration (old : DB) (scenarios : List Scenario) :
    create_database (some old) scenarios = create_database none scenarios := rfl

/-- C6: every committed `knowledge` row comes from a scenario, stores that
scenario's keyword sequence joined with the separator `", "`, and has a NULL
`embedding`. -/
theorem C6_keywords_join_embedding_null (oldFile : Option DB) (scenarios : List Scenario)
    (db : DB) (h : create_database oldFile scenarios = Except.ok db) :
    ∀ kr ∈ db.knowledge, ∃ s ∈ scenarios,
      kr.2 = scenarioRow s ∧
      kr.2.keywords = String.intercalate ", " s.keywords ∧
      kr.2.embedding = none := by
  have hdb := create_database_ok_elim oldFile scenarios db h
  subst hdb
  intro kr hkr
  simp only [builtDB] at hkr
  have hmem : kr.2 ∈ scenarios.map scenarioRow := by
    rw [← tagFrom_map_snd 1 (scenarios.map scenarioRow)]
    exact List.mem_map_of_mem Prod.snd hkr
  obtain ⟨s, hs, hrow⟩ := List.mem_map.mp hmem
  refine ⟨s, hs, hrow.symm, ?_, ?_⟩ <;> rw [← hrow] <;> rfl

/-- Witness for C6: the single committed row of a one-scenario build. -/
theorem C6_keywords_join_embedding_null_witness :
    ∃ s ∈ [dupScenarioA], (1, scenarioRow dupScenarioA).2 = scenarioRow s ∧
      (1, scenarioRow dupScenarioA).2.keywords = String.intercalate ", " s.keywords ∧
      (1, scenarioRow dupScenarioA).2.embedding = none :=
  C6_keywords_join_embedding_null none [dupScenarioA] (builtDB [dupScenarioA]) (by rfl)
    (1, scenarioRow dupScenarioA) (by simp [builtDB, tagFrom])

/-- C9: after a successful build the `metadata` table holds exactly the four
pairs `model_name="keyword-only"`, `embedding_dim="0"`, `version="1.0-basic"`
and `total_scenarios` — the string form of the scenario count, which equals
the actual row count of `knowledge`. -/
theorem C9_metadata_total_scenarios (oldFile : Option DB) (scenarios : List Scenario)
    (db : DB) (h : create_database oldFile scenarios = Except.ok db) :
    db.knowledge.length = scenarios.length ∧
    db.metadata = [("model_name", "keyword-only"), ("embedding_dim", "0"),
                   ("version", "1.0-basic"), ("total_scenarios", toString db.knowledge.length)] := by
  have hdb := create_database_ok_elim oldFile scenarios db h
  subst hdb
  have hlen : (builtDB scenarios).knowledge.length = scenarios.length := by
    simp [builtDB, tagFrom_length, List.length_map]
  exact ⟨hlen, by simp [builtDB, metadataRows, tagFrom_length, List.length_map]⟩

/-- Witness for C9 on a concrete one-scenario build. -/
theorem C9_metadata_total_scenarios_witness :
    (builtDB [dupScenarioA]).knowledge.length = [dupScenarioA].length ∧
    (builtDB [dupScenarioA]).metadata =
      [("model_name", "keyword-only"), ("embedding_dim", "0"),
       ("version", "1.0-basic"),
       ("total_scenarios", toString (builtDB [dupScenarioA]).knowledge.length)] :=
  C9_metadata_total_scenarios none [dupScenarioA] (builtDB [dupScenarioA]) (by rfl)

/-- C5: a missing input directory exits with status 1 before any database
creation (`exitEarly` is a `sys.exit` taken before `create_database` runs,
so no output database is produced); a directory whose load yields zero
scenarios — in particular one with zero JSON files — likewise exits with
status 1 before any database creation; a run that reaches `success` exits
with status 0. -/
theorem C5_exit_status (oldFile : Option DB) :
    Script.main none oldFile = MainResult.exitEarly 1 ∧
    load_knowledge_files [] = [] ∧
    (∀ files, load_knowledge_files files = [] →
      Script.main (some files) oldFile = MainResult.exitEarly 1) ∧
    exitStatus (MainResult.exitEarly 1) = 1 ∧
    (∀ dir db, Script.main dir oldFile = MainResult.success db →
      exitStatus (Script.main dir oldFile) = 0) := by
  refine ⟨rfl, rfl, ?_, rfl, ?_⟩
  · intro files hf
    simp [Script.main, hf]
  · intro dir db h
    rw [h]
    rfl

/-- Witness for C5: the empty directory exits 1; a one-file run exits 0. -/
theorem C5_exit_status_witness :
    Script.main (some []) none = MainResult.exitEarly 1 ∧
    exitStatus (Script.main (some [some jfNoCategory]) none) = 0 := by
  refine ⟨(C5_exit_status none).2.2.1 [] rfl,
    (C5_exit_status none).2.2.2.2 (some [some jfNoCategory])
      (builtDB (load_knowledge_files [some jfNoCategory])) ?_⟩
  rfl

/-- Under the `knowledge_ad` trigger, deleting the rows matching `q` from an
exactly mirrored pair of tables deletes exactly the mirror images, provided
the rowids are pairwise distinct. -/
lemma delete_fts_aux (q : KnowledgeRow → Bool) :
    ∀ l : List (Nat × KnowledgeRow), (l.map Prod.fst).Nodup →
    (l.map ftsOf).filter (fun fr => !(l.any (fun kr => kr.1 == fr.rowid && q kr.2)))
      = (l.filter (fun kr => !(q kr.2))).map ftsOf := by
  intro l
  induction l with
  | nil => intro _; rfl
  | cons kr rest ih =>
    intro hnd
    have hnd' : kr.1 ∉ rest.map Prod.fst ∧ (rest.map Prod.fst).Nodup := by
      rw [List.map_cons, List.nodup_cons] at hnd
      exact hnd
    have hne : ∀ kr' ∈ rest, kr'.1 ≠ kr.1 := by
      intro kr' hkr' h
      exact hnd'.1 (h ▸ List.mem_map_of_mem Prod.fst hkr')
    have hrest : rest.any (fun kr' => kr'.1 == kr.1 && q kr'.2) = false := by
      rw [List.any_eq_false]
      intro kr' hkr'
      simp [hne kr' hkr']
    have htail : ∀ fr ∈ rest.map ftsOf,
        (!((kr :: rest).any (fun kr' => kr'.1 == fr.rowid && q kr'.2)))
          = (!(rest.any (fun kr' => kr'.1 == fr.rowid && q kr'.2))) := by
      intro fr hfr
      obtain ⟨kr'', hkr'', rfl⟩ := List.mem_map.mp hfr
      have : kr.1 ≠ kr''.1 := fun h => (hne kr'' hkr'') h.symm
      simp [List.any_cons, ftsOf, this]
    have hhead : (!((kr :: rest).any fun kr' => kr'.1 == (ftsOf kr).rowid && q kr'.2))
        = !(q kr.2) := by
      simp [List.any_cons, ftsOf, hrest]
    rw [List.map_cons, List.filter_cons, List.filter_congr htail, ih hnd'.2, hhead,
      List.filter_cons]
    by_cases hq : q kr.2
    · simp [hq]
    · simp [hq, ftsOf]

/-- Under the `knowledge_au` trigger, updating the rows matching `q` in an
exactly mirrored pair of tables rewrites exactly the mirror images, provided
the rowids are pairwise distinct. -/
lemma update_fts_aux (q : KnowledgeRow → Bool) (f : KnowledgeRow → KnowledgeRow) :
    ∀ l : List (Nat × KnowledgeRow), (l.map Prod.fst).Nodup →
    (l.map ftsOf).map (fun fr =>
      match l.find? (fun kr => kr.1 == fr.rowid && q kr.2) with
      | some kr =>
        { rowid := fr.rowid, id := (f kr.2).id, category := (f kr.2).category,
          keywords := (f kr.2).keywords, context := (f kr.2).context }
      | none => fr)
      = (l.map (fun kr => if q kr.2 then (kr.1, f kr.2) else kr)).map ftsOf := by
  intro l
  induction l with
  | nil => intro _; rfl
  | cons kr rest ih =>
    intro hnd
    have hnd' : kr.1 ∉ rest.map Prod.fst ∧ (rest.map Prod.fst).Nodup := by
      rw [List.map_cons, List.nodup_cons] at hnd
      exact hnd
    have hne : ∀ kr' ∈ rest, kr'.1 ≠ kr.1 := by
      intro kr' hkr' h
      exact hnd'.1 (h ▸ List.mem_map_of_mem Prod.fst hkr')
    have hrestnone : rest.find? (fun kr' => kr'.1 == kr.1 && q kr'.2) = none := by
      rw [List.find?_eq_none]
      intro kr' hkr'
      simp [hne kr' hkr']
    have htail : ∀ fr ∈ rest.map ftsOf,
        ((kr :: rest).find? (fun kr' => kr'.1 == fr.rowid && q kr'.2))
          = (rest.find? (fun kr' => kr'.1 == fr.rowid && q kr'.2)) := by
      intro fr hfr
      obtain ⟨kr'', hkr'', rfl⟩ := List.mem_map.mp hfr
      have hne2 : kr.1 ≠ kr''.1 := fun h => (hne kr'' hkr'') h.symm
      exact List.find?_cons_of_neg _ (by simp [ftsOf, hne2])
    have ihr := ih hnd'.2
    simp only [List.map_cons]
    congr 1
    · by_cases hq : q kr.2
      · rw [List.find?_cons_of_pos _ (by simp [ftsOf, hq])]
        simp [ftsOf, hq]
      · rw [List.find?_cons_of_neg _ (by simp [ftsOf, hq])]
        have hnone : rest.find? (fun kr' => kr'.1 == (ftsOf kr).rowid && q kr'.2) = none :=
          hrestnone
        rw [hnone]
        simp [ftsOf, hq]
    · rw [List.map_congr_left (fun fr hfr => by rw [htail fr hfr]), ihr]

/-- An exactly mirrored pair of tables agrees on row count and gives every
`knowledge` row its matching `knowledge_fts` entry. -/
lemma ftsMatches_of_dbInv (db : DB) (h : dbInv db) : ftsMatches db := by
  obtain ⟨hfts, _, _⟩ := h
  constructor
  · rw [hfts, List.length_map]
  · intro kr hkr
    rw [hfts]
    exact List.mem_map_of_mem ftsOf hkr

/-- The AFTER INSERT trigger preserves the mirror invariant. -/
lemma dbInv_insert (db : DB) (h : dbInv db) (r : KnowledgeRow) (db' : DB)
    (hok : insertKnowledge db r = Except.ok db') : dbInv db' := by
  obtain ⟨hfts, hnd, hlt⟩ := h
  by_cases hany : db.knowledge.any (fun kr => kr.2.id == r.id) = true
  · simp [insertKnowledge, hany] at hok
  · have hfalse : db.knowledge.any (fun kr => kr.2.id == r.id) = false := by
      simpa using hany
    simp only [insertKnowledge, hfalse, Bool.false_eq_true, if_false, Except.ok.injEq] at hok
    subst hok
    refine ⟨?_, ?_, ?_⟩
    · simp [hfts]
    · simp only [List.map_append]
      rw [List.nodup_append]
      refine ⟨hnd, List.nodup_singleton _, ?_⟩
      intro x hx hx2
      have : x = db.nextRowid := by simpa using hx2
      subst this
      exact absurd (hlt _ hx) (lt_irrefl _)
    · intro rid hrid
      simp only [List.map_append] at hrid
      rcases List.mem_append.mp hrid with hrid | hrid
      · exact lt_trans (hlt rid hrid) (Nat.lt_succ_self _)
      · have : rid = db.nextRowid := by simpa using hrid
        subst this
        exact Nat.lt_succ_self _

/-- The AFTER DELETE trigger preserves the mirror invariant. -/
lemma dbInv_delete (db : DB) (h : dbInv db) (q : KnowledgeRow → Bool) :
    dbInv (deleteKnowledge db q) := by
  obtain ⟨hfts, hnd, hlt⟩ := h
  refine ⟨?_, ?_, ?_⟩
  · simp only [deleteKnowledge]
    rw [hfts, delete_fts_aux q db.knowledge hnd]
  · simp only [deleteKnowledge]
    exact ((List.filter_sublist _).map Prod.fst).nodup hnd
  · intro rid hrid
    simp only [deleteKnowledge] at hrid ⊢
    exact hlt rid (((List.filter_sublist _).map Prod.fst).subset hrid)

/-- The AFTER UPDATE trigger preserves the mirror invariant. -/
lemma dbInv_update (db : DB) (h : dbInv db) (q : KnowledgeRow → Bool)
    (f : KnowledgeRow → KnowledgeRow) : dbInv (updateKnowledge db q f) := by
  obtain ⟨hfts, hnd, hlt⟩ := h
  have hfst : ((db.knowledge.map (fun kr => if q kr.2 then (kr.1, f kr.2) else kr)).map Prod.fst)
      = db.knowledge.map Prod.fst := by
    rw [List.map_map]
    refine List.map_congr_left ?_
    intro kr _
    by_cases hq : q kr.2 <;> simp [Function.comp, hq]
  refine ⟨?_, ?_, ?_⟩
  · simp only [updateKnowledge]
    rw [hfts, update_fts_aux q f db.knowledge hnd]
  · simp only [updateKnowledge]
    rw [hfst]
    exact hnd
  · intro rid hrid
    simp only [updateKnowledge] at hrid ⊢
    rw [hfst] at hrid
    exact hlt rid hrid

/-- C3: starting from a state where the full-text mirror is consistent with
the main table (as every state of this build is, from the fresh database
on), each of the three synchronization triggers keeps it consistent: after
an insert accepted by the primary-key constraint, after any delete and after
any update, the invariant still holds and the two tables agree on row count,
every `knowledge` row having a `knowledge_fts` entry with the same rowid,
id, category, keywords and context. -/
theorem C3_fts_triggers_consistency (db : DB) (h : dbInv db) :
    (∀ r db', insertKnowledge db r = Except.ok db' → dbInv db' ∧ ftsMatches db') ∧
    (∀ q, dbInv (deleteKnowledge db q) ∧ ftsMatches (deleteKnowledge db q)) ∧
    (∀ q f, dbInv (updateKnowledge db q f) ∧ ftsMatches (updateKnowledge db q f)) := by
  refine ⟨?_, ?_, ?_⟩
  · intro r db' hok
    have hinv := dbInv_insert db h r db' hok
    exact ⟨hinv, ftsMatches_of_dbInv db' hinv⟩
  · intro q
    have hinv := dbInv_delete db h q
    exact ⟨hinv, ftsMatches_of_dbInv _ hinv⟩
  · intro q f
    have hinv := dbInv_update db h q f
    exact ⟨hinv, ftsMatches_of_dbInv _ hinv⟩

/-- A concrete row for exercising the insert trigger. -/
def insertedRow : KnowledgeRow :=
  { id := "w", category := "fire", keywords := "smoke, flame", context := "c",
    priority := "high", embedding := none }

/-- The state after inserting `insertedRow` into the fresh database. -/
def dbAfterInsert : DB :=
  { knowledge := [(1, insertedRow)], knowledge_fts := [ftsOf (1, insertedRow)],
    metadata := [], nextRowid := 2 }

/-- Witness for C3: the fresh database is consistent, and inserting one
concrete row keeps it consistent. -/
theorem C3_fts_triggers_consistency_witness :
    dbInv emptyDB ∧ (dbInv dbAfterInsert ∧ ftsMatches dbAfterInsert) := by
  have h : dbInv emptyDB := by
    refine ⟨rfl, List.nodup_nil, ?_⟩
    intro rid hrid
    simp [emptyDB] at hrid
  exact ⟨h, (C3_fts_triggers_consistency emptyDB h).1 insertedRow dbAfterInsert rfl⟩
